import Mathlib

/-!
Verification development for the PARCtorch repository.

The repository's visible source is the demo notebook
`src/PARCtorch/demos/NavierStokes.ipynb` (plus packaging metadata).  The
notebook is straight-line Python gluing together library calls.  We embed it
shallowly:

* notebook path constants become `NbPath` values;
* every library call the notebook makes becomes a `PyCall` record holding the
  function name, its arguments (positional or keyword) and any chained method
  calls, transcribed verbatim from the notebook cell;
* library functions whose implementations are not part of the repository
  excerpt (only their call sites are) are modelled from the specification,
  each such definition carrying a doc comment starting `Modelled from the
  spec:`.
-/

namespace PARCtorch

/-- A filesystem path, as its list of components. -/
abbrev NbPath := List String

/-- `Path.parent` of the Python `pathlib` API: drop the last component. -/
def parentDir (p : NbPath) : NbPath := p.dropLast

/-- The `/` operator of the Python `pathlib` API: append one component. -/
def joinPath (p : NbPath) (s : String) : NbPath := p ++ [s]

/-- Notebook: `train_dir = Path("../data/navier_stokes/train")`. -/
def train_dir : NbPath := ["..", "data", "navier_stokes", "train"]

/-- Notebook: `test_dir = Path("../data/navier_stokes/test")`. -/
def test_dir : NbPath := ["..", "data", "navier_stokes", "test"]

/-- Notebook: `min_max_file = train_dir.parent / "ns_min_max.json"`. -/
def min_max_file : NbPath := joinPath (parentDir train_dir) "ns_min_max.json"

/-- Notebook: `model_weights_path = train_dir.parent / "model.pth"`. -/
def model_weights_path : NbPath := joinPath (parentDir train_dir) "model.pth"

/-- A Python value appearing as an argument in one of the notebook's calls.
`obj s` is a reference to the notebook object bound to variable `s` (used for
values, such as models or loaders, that are not literals); `dec m e` is the
decimal literal `m × 10⁻ᵉ` (so `0.2` is `dec 2 1` and `1e-5` is `dec 1 5`);
`fstr stem var` is the Python f-string interpolating variable `var` after the
literal `stem`. -/
inductive PyVal where
  | pynone
  | bool (b : Bool)
  | int (n : Int)
  | dec (mantissa : Int) (exp10 : Nat)
  | str (s : String)
  | fstr (stem : String) (var : String)
  | path (p : NbPath)
  | obj (name : String)
  | pathList (ps : List NbPath)
  | strList (ss : List String)
  | intList (ns : List Int)
  | boolList (bs : List Bool)
  | intTupleList (ts : List (List Int))
  | optIntList (os : List (Option Int))
deriving DecidableEq

/-- One argument of a call: `key = some k` for a keyword argument `k=v`,
`key = none` for a positional argument. -/
structure PyArg where
  key : Option String
  val : PyVal
deriving DecidableEq

/-- One call made by the notebook: callee name, argument list in source order,
and the names of methods chained onto the result (e.g. `.cuda()`). -/
structure PyCall where
  fn : String
  args : List PyArg
  chained : List String
deriving DecidableEq

/-- Notebook: `future_steps = 1` (training cell). -/
def future_steps : Int := 1

/-- Notebook: `batch_size = 8`. -/
def batch_size : Nat := 8

/-- Notebook: `future_steps = 10` (re-assignment in the sequence-loader cell). -/
def future_steps' : Int := 10

/-- Notebook: `n_fe_features = 128`. -/
def n_fe_features : Int := 128

/-- Notebook: `compute_min_max([train_dir, test_dir], min_max_file)`. -/
def compute_min_max_call : PyCall :=
  ⟨"compute_min_max",
   [⟨Option.none, PyVal.pathList [train_dir, test_dir]⟩,
    ⟨Option.none, PyVal.path min_max_file⟩], []⟩

/-- Notebook: `train_dataset = GenericPhysicsDataset(data_dirs=[train_dir],
future_steps=future_steps, min_max_path=min_max_file)`. -/
def train_dataset_call : PyCall :=
  ⟨"GenericPhysicsDataset",
   [⟨some "data_dirs", PyVal.pathList [train_dir]⟩,
    ⟨some "future_steps", PyVal.int future_steps⟩,
    ⟨some "min_max_path", PyVal.path min_max_file⟩], []⟩

/-- Notebook: `train_loader = DataLoader(train_dataset, batch_size=batch_size,
shuffle=False, num_workers=1, pin_memory=True, collate_fn=custom_collate_fn)`. -/
def train_loader_call : PyCall :=
  ⟨"DataLoader",
   [⟨Option.none, PyVal.obj "train_dataset"⟩,
    ⟨some "batch_size", PyVal.int batch_size⟩,
    ⟨some "shuffle", PyVal.bool false⟩,
    ⟨some "num_workers", PyVal.int 1⟩,
    ⟨some "pin_memory", PyVal.bool true⟩,
    ⟨some "collate_fn", PyVal.obj "custom_collate_fn"⟩], []⟩

/-- Notebook: `channel_names = ["Pressure (P)", "Reynolds (R)", "Velocity U",
"Velocity V"]`. -/
def channel_names : List String :=
  ["Pressure (P)", "Reynolds (R)", "Velocity U", "Velocity V"]

/-- Notebook: `custom_cmaps = ["seismic", "seismic", "seismic", "seismic"]`. -/
def custom_cmaps : List String := ["seismic", "seismic", "seismic", "seismic"]

/-- Notebook: `visualize_channels(ic, t0, t1, target,
channel_names=channel_names, channel_cmaps=custom_cmaps)`. -/
def visualize_channels_call : PyCall :=
  ⟨"visualize_channels",
   [⟨Option.none, PyVal.obj "ic"⟩,
    ⟨Option.none, PyVal.obj "t0"⟩,
    ⟨Option.none, PyVal.obj "t1"⟩,
    ⟨Option.none, PyVal.obj "target"⟩,
    ⟨some "channel_names", PyVal.strList channel_names⟩,
    ⟨some "channel_cmaps", PyVal.strList custom_cmaps⟩], []⟩

/-- Notebook: `unet_ns = UNet([64, 64 * 2, 64 * 4, 64 * 8, 64 * 16], 4,
n_fe_features, up_block_use_concat=[False, True, False, True],
skip_connection_indices=[2, 0])`. -/
def unet_call : PyCall :=
  ⟨"UNet",
   [⟨Option.none, PyVal.intList [64, 64 * 2, 64 * 4, 64 * 8, 64 * 16]⟩,
    ⟨Option.none, PyVal.int 4⟩,
    ⟨Option.none, PyVal.int n_fe_features⟩,
    ⟨some "up_block_use_concat", PyVal.boolList [false, true, false, true]⟩,
    ⟨some "skip_connection_indices", PyVal.intList [2, 0]⟩], []⟩

/-- Notebook: `right_diff = FiniteDifference(padding_mode="replicate").cuda()`. -/
def right_diff_call : PyCall :=
  ⟨"FiniteDifference", [⟨some "padding_mode", PyVal.str "replicate"⟩], ["cuda"]⟩

/-- Notebook: `heun_int = Heun().cuda()`. -/
def heun_call : PyCall := ⟨"Heun", [], ["cuda"]⟩

/-- Notebook: `diff_ns = ADRDifferentiator(2, n_fe_features, [2, 3], [2, 3],
unet_ns, "constant", right_diff, False).cuda()`. -/
def diff_ns_call : PyCall :=
  ⟨"ADRDifferentiator",
   [⟨Option.none, PyVal.int 2⟩,
    ⟨Option.none, PyVal.int n_fe_features⟩,
    ⟨Option.none, PyVal.intList [2, 3]⟩,
    ⟨Option.none, PyVal.intList [2, 3]⟩,
    ⟨Option.none, PyVal.obj "unet_ns"⟩,
    ⟨Option.none, PyVal.str "constant"⟩,
    ⟨Option.none, PyVal.obj "right_diff"⟩,
    ⟨Option.none, PyVal.bool false⟩], ["cuda"]⟩

/-- Notebook: `ns_int = Integrator(True, [(0, 2, 3, 1)], heun_int,
[None, None, None, None], "constant", right_diff).cuda()`. -/
def ns_int_call : PyCall :=
  ⟨"Integrator",
   [⟨Option.none, PyVal.bool true⟩,
    ⟨Option.none, PyVal.intTupleList [[0, 2, 3, 1]]⟩,
    ⟨Option.none, PyVal.obj "heun_int"⟩,
    ⟨Option.none, PyVal.optIntList [Option.none, Option.none, Option.none, Option.none]⟩,
    ⟨Option.none, PyVal.str "constant"⟩,
    ⟨Option.none, PyVal.obj "right_diff"⟩], ["cuda"]⟩

/-- Notebook: `criterion = torch.nn.L1Loss().cuda()`. -/
def criterion_call : PyCall := ⟨"torch.nn.L1Loss", [], ["cuda"]⟩

/-- Notebook: `model = PARCv2(diff_ns, ns_int, criterion).cuda()`. -/
def parcv2_call : PyCall :=
  ⟨"PARCv2",
   [⟨Option.none, PyVal.obj "diff_ns"⟩,
    ⟨Option.none, PyVal.obj "ns_int"⟩,
    ⟨Option.none, PyVal.obj "criterion"⟩], ["cuda"]⟩

/-- Notebook: `optimizer = Adam(model.parameters(), lr=1e-5)`. -/
def adam_call : PyCall :=
  ⟨"Adam",
   [⟨Option.none, PyVal.obj "model.parameters()"⟩,
    ⟨some "lr", PyVal.dec 1 5⟩], []⟩

/-- Notebook: `train_model(model, train_loader, criterion, optimizer,
num_epochs=1, save_dir=train_dir.parent, app="ns")`. -/
def train_model_call : PyCall :=
  ⟨"train_model",
   [⟨Option.none, PyVal.obj "model"⟩,
    ⟨Option.none, PyVal.obj "train_loader"⟩,
    ⟨Option.none, PyVal.obj "criterion"⟩,
    ⟨Option.none, PyVal.obj "optimizer"⟩,
    ⟨some "num_epochs", PyVal.int 1⟩,
    ⟨some "save_dir", PyVal.path (parentDir train_dir)⟩,
    ⟨some "app", PyVal.str "ns"⟩], []⟩

/-- Notebook: `model = load_model_weights(model, model_weights_path, device)`. -/
def load_model_weights_call : PyCall :=
  ⟨"load_model_weights",
   [⟨Option.none, PyVal.obj "model"⟩,
    ⟨Option.none, PyVal.path model_weights_path⟩,
    ⟨Option.none, PyVal.obj "device"⟩], []⟩

/-- Notebook: `seq_dataset = InitialConditionDataset(data_dirs=[test_dir],
future_steps=future_steps, min_max_path=min_max_file)` (with `future_steps`
re-assigned to 10 just above). -/
def seq_dataset_call : PyCall :=
  ⟨"InitialConditionDataset",
   [⟨some "data_dirs", PyVal.pathList [test_dir]⟩,
    ⟨some "future_steps", PyVal.int future_steps'⟩,
    ⟨some "min_max_path", PyVal.path min_max_file⟩], []⟩

/-- Notebook: `seq_loader = DataLoader(seq_dataset, batch_size=batch_size,
shuffle=False, num_workers=1, pin_memory=True,
collate_fn=initial_condition_collate_fn)`. -/
def seq_loader_call : PyCall :=
  ⟨"DataLoader",
   [⟨Option.none, PyVal.obj "seq_dataset"⟩,
    ⟨some "batch_size", PyVal.int batch_size⟩,
    ⟨some "shuffle", PyVal.bool false⟩,
    ⟨some "num_workers", PyVal.int 1⟩,
    ⟨some "pin_memory", PyVal.bool true⟩,
    ⟨some "collate_fn", PyVal.obj "initial_condition_collate_fn"⟩], []⟩

/-- Notebook: `gt_dataset = GenericPhysicsDataset(data_dirs=[test_dir],
future_steps=future_steps, min_max_path=min_max_file)` (with `future_steps`
still 10). -/
def gt_dataset_call : PyCall :=
  ⟨"GenericPhysicsDataset",
   [⟨some "data_dirs", PyVal.pathList [test_dir]⟩,
    ⟨some "future_steps", PyVal.int future_steps'⟩,
    ⟨some "min_max_path", PyVal.path min_max_file⟩], []⟩

/-- Notebook: `gt_loader = DataLoader(gt_dataset, batch_size=batch_size,
shuffle=False, num_workers=1, pin_memory=True, collate_fn=custom_collate_fn)`. -/
def gt_loader_call : PyCall :=
  ⟨"DataLoader",
   [⟨Option.none, PyVal.obj "gt_dataset"⟩,
    ⟨some "batch_size", PyVal.int batch_size⟩,
    ⟨some "shuffle", PyVal.bool false⟩,
    ⟨some "num_workers", PyVal.int 1⟩,
    ⟨some "pin_memory", PyVal.bool true⟩,
    ⟨some "collate_fn", PyVal.obj "custom_collate_fn"⟩], []⟩

/-- Notebook: `channels = ["pressure", "Reynolds", "u", "v"]`. -/
def channels : List String := ["pressure", "Reynolds", "u", "v"]

/-- Notebook: `cmaps = ["viridis", "plasma", "inferno", "magma"]`. -/
def cmaps : List String := ["viridis", "plasma", "inferno", "magma"]

/-- Notebook: `predictions = model(ic, t0, t1)` (inside `torch.no_grad()`). -/
def predictions_call : PyCall :=
  ⟨"model",
   [⟨Option.none, PyVal.obj "ic"⟩,
    ⟨Option.none, PyVal.obj "t0"⟩,
    ⟨Option.none, PyVal.obj "t1"⟩], []⟩

/-- Notebook: `save_gifs_with_ground_truth(predictions=predictions,
ground_truth=ground_truth, channels=channels, cmaps=cmaps,
filename_prefix=f"comparison_batch{batch_idx}", interval=0.2,
batch_idx=batch_idx)`. -/
def save_gifs_call : PyCall :=
  ⟨"save_gifs_with_ground_truth",
   [⟨some "predictions", PyVal.obj "predictions"⟩,
    ⟨some "ground_truth", PyVal.obj "ground_truth"⟩,
    ⟨some "channels", PyVal.strList channels⟩,
    ⟨some "cmaps", PyVal.strList cmaps⟩,
    ⟨some "filename_prefix", PyVal.fstr "comparison_batch" "batch_idx"⟩,
    ⟨some "interval", PyVal.dec 2 1⟩,
    ⟨some "batch_idx", PyVal.obj "batch_idx"⟩], []⟩

/-- The notebook's variable bindings whose right-hand side is a call, in
source order.  `model` is bound twice: first to the `PARCv2(...)` result,
then re-bound to the `load_model_weights(...)` result after training. -/
def notebookBindings : List (String × PyCall) :=
  [("train_dataset", train_dataset_call),
   ("train_loader", train_loader_call),
   ("unet_ns", unet_call),
   ("right_diff", right_diff_call),
   ("heun_int", heun_call),
   ("diff_ns", diff_ns_call),
   ("ns_int", ns_int_call),
   ("criterion", criterion_call),
   ("model", parcv2_call),
   ("optimizer", adam_call),
   ("model", load_model_weights_call),
   ("seq_dataset", seq_dataset_call),
   ("seq_loader", seq_loader_call),
   ("gt_dataset", gt_dataset_call),
   ("gt_loader", gt_loader_call),
   ("predictions", predictions_call)]

/-- The three dataset-constructor calls made by the notebook, in source
order: training, sequence (initial-condition), and ground-truth. -/
def datasetConstructorCalls : List PyCall :=
  [train_dataset_call, seq_dataset_call, gt_dataset_call]

/-! ## The channel layout

The Navier-Stokes data carries four physical field channels.  The notebook
fixes their order in the comment of the model-construction cell
(`p = pressure, re = Reynolds number, u = velocity in x-direction,
v = velocity in y-direction`) and in the two metadata lists `channel_names`
and `channels`. -/

/-- A semantic Navier-Stokes data channel. -/
inductive NSChannel where
  | pressure
  | reynolds
  | uVel
  | vVel
deriving DecidableEq

/-- The fixed channel order used throughout the notebook: pressure, Reynolds
number, u velocity, v velocity. -/
def channelLayout : List NSChannel :=
  [NSChannel.pressure, NSChannel.reynolds, NSChannel.uVel, NSChannel.vVel]

/-- Interpretation of the notebook's channel-label strings as semantic
channels (covering both spellings used: the `channel_names` list of the
data-visualization cell and the `channels` list of the result-visualization
cell). -/
def nameToChannel : String → Option NSChannel
  | "Pressure (P)" => some NSChannel.pressure
  | "Reynolds (R)" => some NSChannel.reynolds
  | "Velocity U" => some NSChannel.uVel
  | "Velocity V" => some NSChannel.vVel
  | "pressure" => some NSChannel.pressure
  | "Reynolds" => some NSChannel.reynolds
  | "u" => some NSChannel.uVel
  | "v" => some NSChannel.vVel
  | _ => Option.none

/-! ## Min-max normalization statistics (spec-modelled)

`compute_min_max` lives in `PARCtorch.data.normalization`, outside the
repository excerpt; only its call site is in the notebook. -/

/-- The per-channel observations a data directory contributes: a list of
(channel, value) pairs. -/
abbrev StatDir := List (NSChannel × Int)

/-- All values observed for channel `c` across the given directories. -/
def valuesOf (dirs : List StatDir) (c : NSChannel) : List Int :=
  dirs.flatten.filterMap (fun o => if o.1 = c then some o.2 else Option.none)

/-- Minimum of a list of values, `none` on the empty list. -/
def minOf : List Int → Option Int
  | [] => Option.none
  | v :: vs => some (vs.foldl min v)

/-- Maximum of a list of values, `none` on the empty list. -/
def maxOf : List Int → Option Int
  | [] => Option.none
  | v :: vs => some (vs.foldl max v)

/-- The contents of the normalization statistics JSON file: for each channel,
its (min, max) pair. -/
abbrev StatsFile := List (NSChannel × Int × Int)

/-- The statistics entry of one channel: its (min, max) pair, when it has at
least one observation. -/
def statEntry (dirs : List StatDir) (c : NSChannel) : Option (NSChannel × Int × Int) :=
  match minOf (valuesOf dirs c), maxOf (valuesOf dirs c) with
  | some mn, some mx => some (c, mn, mx)
  | _, _ => Option.none

/-- The statistics computed over a list of data directories: for each channel
of the layout with at least one observation, its minimum and maximum. -/
def statsOf (dirs : List StatDir) : StatsFile :=
  channelLayout.filterMap (statEntry dirs)

/-- A filesystem of statistics files: path to contents. -/
abbrev StatsFS := NbPath → Option StatsFile

/-- Modelled from the spec: `compute_min_max`
(`PARCtorch.data.normalization`), whose implementation is not in the
repository excerpt.  Per the spec it is "a min-max normalization computation
taking a list of data directories and producing a JSON file of per-channel
statistics", where the "normalization statistics file contains min/max per
channel": it writes the per-channel min/max statistics of the given
directories to the given output path. -/
def compute_min_max (dirs : List StatDir) (out : NbPath) (fs : StatsFS) : StatsFS :=
  fun p => if p = out then some (statsOf dirs) else fs p

/-! ## Datasets, loaders and collation (spec-modelled)

`GenericPhysicsDataset`, `InitialConditionDataset`, `custom_collate_fn`,
`initial_condition_collate_fn` and PyTorch's `DataLoader` are all outside the
repository excerpt; only their call sites are in the notebook. -/

/-- One dataset sample: initial-condition tensor (flattened), start time,
end time, and ground-truth target tensor. -/
structure Sample where
  ic : List Int
  t0 : Int
  t1 : Int
  target : List Int
deriving DecidableEq

/-- The samples a data directory contributes, in directory order. -/
abbrev TrajDir := List Sample

/-- Modelled from the spec: `GenericPhysicsDataset`
(`PARCtorch.data.dataset`), whose implementation is not in the repository
excerpt.  It enumerates the samples of its data directories in order; each
sample yields an initial condition, a start time, an end time, and a
ground-truth target. -/
def genericPhysicsDataset (dirs : List TrajDir) : List Sample := dirs.flatten

/-- Modelled from the spec: `InitialConditionDataset`
(`PARCtorch.data.dataset`), whose implementation is not in the repository
excerpt.  Per the spec it "loades the initial state for the physical system"
from the same data directories: it enumerates the same underlying samples,
in the same order, as `genericPhysicsDataset`. -/
def initialConditionDataset (dirs : List TrajDir) : List Sample := dirs.flatten

/-- A collated batch: stacked initial conditions, start times, end times,
and targets — a 4-tuple, in that order. -/
abbrev Batch := List (List Int) × List Int × List Int × List (List Int)

/-- Modelled from the spec: `custom_collate_fn` (`PARCtorch.data.dataset`),
whose implementation is not in the repository excerpt.  It combines a chunk
of samples into one batch, stacking the initial conditions, start times, end
times and targets componentwise. -/
def custom_collate_fn (chunk : List Sample) : Batch :=
  (chunk.map Sample.ic, chunk.map Sample.t0, chunk.map Sample.t1,
   chunk.map Sample.target)

/-- Modelled from the spec: `initial_condition_collate_fn`
(`PARCtorch.data.dataset`), whose implementation is not in the repository
excerpt.  It stacks the initial conditions, start times and end times of a
chunk; the fourth batch component (ignored by the notebook, which unpacks it
as `_`) is modelled as empty. -/
def initial_condition_collate_fn (chunk : List Sample) : Batch :=
  (chunk.map Sample.ic, chunk.map Sample.t0, chunk.map Sample.t1, [])

/-- Auxiliary chunking recursion: splits `xs` into runs of `b + 1` elements,
consuming at most `fuel` rounds (with `fuel = xs.length` every run is
reached, since each round consumes at least one element). -/
def chunksGo (b : Nat) : Nat → List Sample → List (List Sample)
  | _, [] => []
  | 0, xs => [xs]
  | fuel + 1, xs => xs.take (b + 1) :: chunksGo b fuel (xs.drop (b + 1))

/-- Split a list into consecutive chunks of size `b` (the last chunk may be
shorter); empty for `b = 0`. -/
def chunksOf (b : Nat) (xs : List Sample) : List (List Sample) :=
  match b with
  | 0 => []
  | b + 1 => chunksGo b xs.length xs

/-- Modelled from the spec: PyTorch's `DataLoader` with `shuffle=False`,
whose implementation is not in the repository excerpt.  With shuffling
disabled it partitions the dataset into consecutive chunks of `batchSize`
samples, in dataset order, and applies the collate function to each chunk. -/
def dataLoaderBatches (ds : List Sample) (batchSize : Nat)
    (collate : List Sample → Batch) : List Batch :=
  (chunksOf batchSize ds).map collate

/-! ## Weight loading (spec-modelled) -/

/-- A neural-network model: its architecture description, its parameter
vector, and the device it lives on. -/
structure NNModel where
  arch : String
  weights : List Int
  device : String
deriving DecidableEq

/-- A filesystem of checkpoint files: path to stored parameter vector. -/
abbrev CkptFS := NbPath → Option (List Int)

/-- Modelled from the spec: `load_model_weights`
(`PARCtorch.utilities.load`), whose implementation is not in the repository
excerpt.  Per the spec it is "a weight-loading entry point taking a model,
checkpoint path, and device": it returns the given model with its parameter
vector replaced by the checkpoint's contents, placed on the given device;
it fails if the checkpoint file is absent. -/
def load_model_weights (m : NNModel) (ckpt : NbPath) (dev : String)
    (fs : CkptFS) : Option NNModel :=
  match fs ckpt with
  | some w => some ⟨m.arch, w, dev⟩
  | Option.none => Option.none

/-! ## GIF emission (spec-modelled) -/

/-- One 2-D image frame. -/
abbrev Frame := List (List Int)

/-- A 5-D tensor of shape [time, batch, channel, height, width], as nested
lists of frames. -/
abbrev Tensor5 := List (List (List Frame))

/-- The frame of a 5-D tensor at time `ti`, batch index `bi`, channel `ci`. -/
def frameAt (t : Tensor5) (ti bi ci : Nat) : Frame :=
  ((t.getD ti []).getD bi []).getD ci []

/-- The comparison frames of one GIF: for each timestep, the prediction
frame paired with the ground-truth frame, at the given batch and channel
indices. -/
def gifFrames (pred gt : Tensor5) (bi ci : Nat) : List (Frame × Frame) :=
  (List.range pred.length).map (fun ti => (frameAt pred ti bi ci, frameAt gt ti bi ci))

/-- The file name of the comparison GIF of channel `ch`: the filename stem,
an underscore, the channel name, and the `.gif` extension. -/
def gifFileName (stem ch : String) : String := stem ++ "_" ++ ch ++ ".gif"

/-- Modelled from the spec: `save_gifs_with_ground_truth`
(`PARCtorch.utilities.viz`), whose implementation is not in the repository
excerpt.  Per the spec it is a "visualization entry point taking
prediction/ground-truth tensors and channel metadata to emit comparison
animations": for each named channel it emits one GIF file, named after the
channel, whose frames pair the prediction frames with the ground-truth
frames of that channel. -/
def save_gifs_with_ground_truth (pred gt : Tensor5) (chs : List String)
    (stem : String) (bi : Nat) : List (String × List (Frame × Frame)) :=
  chs.enum.map (fun p => (gifFileName stem p.2, gifFrames pred gt bi p.1))

/-- The batches of the sequence (initial-condition) loader: the notebook's
`seq_loader`, whose dataset is `InitialConditionDataset` over the test
directory and whose collate function is `initial_condition_collate_fn`. -/
def seqBatches (dirs : List TrajDir) : List Batch :=
  dataLoaderBatches (initialConditionDataset dirs) batch_size
    initial_condition_collate_fn

/-- The batches of the ground-truth loader: the notebook's `gt_loader`, whose
dataset is `GenericPhysicsDataset` over the test directory and whose collate
function is `custom_collate_fn`. -/
def gtBatches (dirs : List TrajDir) : List Batch :=
  dataLoaderBatches (genericPhysicsDataset dirs) batch_size custom_collate_fn

/-- The first three components of a batch: initial conditions, start times,
end times. -/
def firstThree (b : Batch) : List (List Int) × List Int × List Int :=
  (b.1, b.2.1, b.2.2.1)

/-- The predicate checked of each dataset-constructor call: its arguments
are exactly a `data_dirs` list of directories, a `future_steps` horizon, and
a `min_max_path` statistics-file path, in that order. -/
def hasDatasetSignature (c : PyCall) : Bool :=
  match c.args with
  | [⟨some "data_dirs", PyVal.pathList _⟩, ⟨some "future_steps", PyVal.int _⟩,
     ⟨some "min_max_path", PyVal.path _⟩] => true
  | _ => false

/-! ## Helper lemmas on list minima and maxima -/

theorem foldl_min_le_init (vs : List Int) (a : Int) : vs.foldl min a ≤ a := by
  induction vs generalizing a with
  | nil => exact le_refl a
  | cons v vs ih =>
    exact le_trans (ih (min a v)) (min_le_left a v)

theorem foldl_min_le_mem (vs : List Int) (a : Int) :
    ∀ v ∈ vs, vs.foldl min a ≤ v := by
  induction vs generalizing a with
  | nil => intro v hv; cases hv
  | cons w vs ih =>
    intro v hv
    rcases List.mem_cons.mp hv with h | h
    · subst h
      exact le_trans (foldl_min_le_init vs (min a v)) (min_le_right a v)
    · exact ih (min a w) v h

theorem foldl_min_mem (vs : List Int) (a : Int) :
    vs.foldl min a = a ∨ vs.foldl min a ∈ vs := by
  induction vs generalizing a with
  | nil => left; rfl
  | cons w vs ih =>
    show (vs.foldl min (min a w) = a) ∨ _ ∈ w :: vs
    rcases ih (min a w) with h | h
    · rw [List.foldl_cons, h]
      rcases le_total a w with hle | hle
      · left; exact min_eq_left hle
      · right
        rw [min_eq_right hle]
        exact List.mem_cons_self w vs
    · right
      rw [List.foldl_cons]
      exact List.mem_cons_of_mem w h

theorem foldl_max_le_init (vs : List Int) (a : Int) : a ≤ vs.foldl max a := by
  induction vs generalizing a with
  | nil => exact le_refl a
  | cons v vs ih =>
    exact le_trans (le_max_left a v) (ih (max a v))

theorem foldl_max_le_mem (vs : List Int) (a : Int) :
    ∀ v ∈ vs, v ≤ vs.foldl max a := by
  induction vs generalizing a with
  | nil => intro v hv; cases hv
  | cons w vs ih =>
    intro v hv
    rcases List.mem_cons.mp hv with h | h
    · subst h
      exact le_trans (le_max_right a v) (foldl_max_le_init vs (max a v))
    · exact ih (max a w) v h

theorem foldl_max_mem (vs : List Int) (a : Int) :
    vs.foldl max a = a ∨ vs.foldl max a ∈ vs := by
  induction vs generalizing a with
  | nil => left; rfl
  | cons w vs ih =>
    show (vs.foldl max (max a w) = a) ∨ _ ∈ w :: vs
    rcases ih (max a w) with h | h
    · rw [List.foldl_cons, h]
      rcases le_total a w with hle | hle
      · right
        rw [max_eq_right hle]
        exact List.mem_cons_self w vs
      · left; exact max_eq_left hle
    · right
      rw [List.foldl_cons]
      exact List.mem_cons_of_mem w h

theorem minOf_spec (vs : List Int) (m : Int) (h : minOf vs = some m) :
    m ∈ vs ∧ ∀ v ∈ vs, m ≤ v := by
  cases vs with
  | nil => cases h
  | cons v vs =>
    have hm : vs.foldl min v = m := by
      simpa [minOf] using h
    subst hm
    refine ⟨?_, ?_⟩
    · rcases foldl_min_mem vs v with h | h
      · rw [h]; exact List.mem_cons_self v vs
      · exact List.mem_cons_of_mem v h
    · intro w hw
      rcases List.mem_cons.mp hw with h | h
      · subst h; exact foldl_min_le_init vs w
      · exact foldl_min_le_mem vs v w h

theorem maxOf_spec (vs : List Int) (m : Int) (h : maxOf vs = some m) :
    m ∈ vs ∧ ∀ v ∈ vs, v ≤ m := by
  cases vs with
  | nil => cases h
  | cons v vs =>
    have hm : vs.foldl max v = m := by
      simpa [maxOf] using h
    subst hm
    refine ⟨?_, ?_⟩
    · rcases foldl_max_mem vs v with h | h
      · rw [h]; exact List.mem_cons_self v vs
      · exact List.mem_cons_of_mem v h
    · intro w hw
      rcases List.mem_cons.mp hw with h | h
      · subst h; exact foldl_max_le_init vs w
      · exact foldl_max_le_mem vs v w h

/-! ## The claims -/

/-- Claim C3, as stated, fails on the code: the notebook's `train_model` call
passes seven arguments, not exactly the six claimed ones — besides the model,
data loader, loss criterion, optimizer, epoch count and output directory, it
also passes the keyword argument `app="ns"`. -/
theorem train_model_call_not_six_inputs :
    ¬ train_model_call.args.length = 6 := by decide

/-- Claim C3 (amended): the training entry point `train_model` is invoked
with a model, a data loader, a loss criterion, an optimizer (the four
positional arguments, bound to the notebook's `PARCv2` model, `DataLoader`,
`L1Loss` criterion and `Adam` optimizer respectively), an epoch count of 1,
an output directory for saved weights (the parent of the training data
directory), and additionally an application-name tag `app="ns"`. -/
theorem train_model_invocation :
    train_model_call.fn = "train_model"
    ∧ train_model_call.args =
        [⟨Option.none, PyVal.obj "model"⟩,
         ⟨Option.none, PyVal.obj "train_loader"⟩,
         ⟨Option.none, PyVal.obj "criterion"⟩,
         ⟨Option.none, PyVal.obj "optimizer"⟩,
         ⟨some "num_epochs", PyVal.int 1⟩,
         ⟨some "save_dir", PyVal.path (parentDir train_dir)⟩,
         ⟨some "app", PyVal.str "ns"⟩]
    ∧ notebookBindings.lookup "model" = some parcv2_call
    ∧ parcv2_call.fn = "PARCv2"
    ∧ notebookBindings.lookup "train_loader" = some train_loader_call
    ∧ train_loader_call.fn = "DataLoader"
    ∧ notebookBindings.lookup "criterion" = some criterion_call
    ∧ criterion_call.fn = "torch.nn.L1Loss"
    ∧ notebookBindings.lookup "optimizer" = some adam_call
    ∧ adam_call.fn = "Adam" := by decide

/-- Claim C4: each of the three dataset-constructor calls of the notebook
(`GenericPhysicsDataset` for training, `InitialConditionDataset` for the
sequence loader, `GenericPhysicsDataset` for ground truth) is invoked with
exactly a list of data directories, a forecast horizon, and a normalization
statistics-file path. -/
theorem dataset_constructor_signatures :
    datasetConstructorCalls.map PyCall.fn =
      ["GenericPhysicsDataset", "InitialConditionDataset", "GenericPhysicsDataset"]
    ∧ datasetConstructorCalls.all hasDatasetSignature = true := by decide

/-- Claim C5: the `PARCv2` constructor is invoked with exactly the
differentiator, the integrator and the loss criterion, in that order (each
bound to the corresponding constructor call), and its result is the value
bound to `model`, which is the first argument of the training call, is the
model handed to the weight-loading call, and is the function applied to
produce predictions. -/
theorem parcv2_construction_and_use :
    parcv2_call.fn = "PARCv2"
    ∧ parcv2_call.args =
        [⟨Option.none, PyVal.obj "diff_ns"⟩,
         ⟨Option.none, PyVal.obj "ns_int"⟩,
         ⟨Option.none, PyVal.obj "criterion"⟩]
    ∧ notebookBindings.lookup "diff_ns" = some diff_ns_call
    ∧ diff_ns_call.fn = "ADRDifferentiator"
    ∧ notebookBindings.lookup "ns_int" = some ns_int_call
    ∧ ns_int_call.fn = "Integrator"
    ∧ notebookBindings.lookup "criterion" = some criterion_call
    ∧ criterion_call.fn = "torch.nn.L1Loss"
    ∧ notebookBindings.lookup "model" = some parcv2_call
    ∧ train_model_call.args.head? = some ⟨Option.none, PyVal.obj "model"⟩
    ∧ load_model_weights_call.args.head? = some ⟨Option.none, PyVal.obj "model"⟩
    ∧ predictions_call.fn = "model" := by decide

/-- Claim C8: every stage of the notebook uses the same four-channel layout
— pressure, Reynolds number, u velocity, v velocity, in that order: the
data-visualization metadata (`channel_names`, `custom_cmaps`), the model
construction (a UNet over 4 input channels; advection and diffusion computed
on channel indices 2 and 3, which are the u and v velocities; the Poisson
term applied to channel 0, which is the pressure; one integrator entry per
channel), and the result-visualization metadata (`channels`, `cmaps`). -/
theorem channel_layout_consistent :
    channelLayout.length = 4
    ∧ channel_names.filterMap nameToChannel = channelLayout
    ∧ channel_names.length = 4
    ∧ custom_cmaps.length = 4
    ∧ channels.filterMap nameToChannel = channelLayout
    ∧ channels.length = 4
    ∧ cmaps.length = 4
    ∧ unet_call.args[1]? = some ⟨Option.none, PyVal.int 4⟩
    ∧ diff_ns_call.args[2]? = some ⟨Option.none, PyVal.intList [2, 3]⟩
    ∧ diff_ns_call.args[3]? = some ⟨Option.none, PyVal.intList [2, 3]⟩
    ∧ channelLayout[2]? = some NSChannel.uVel
    ∧ channelLayout[3]? = some NSChannel.vVel
    ∧ ns_int_call.args[1]? = some ⟨Option.none, PyVal.intTupleList [[0, 2, 3, 1]]⟩
    ∧ channelLayout[0]? = some NSChannel.pressure
    ∧ ns_int_call.args[3]? =
        some ⟨Option.none,
              PyVal.optIntList [Option.none, Option.none, Option.none, Option.none]⟩ := by
  decide

/-- Claim C10: all three dataset constructions receive the same normalization
statistics file `ns_min_max.json`, and that file is the output path of the
`compute_min_max` call whose input directories are both the training and the
test directory. -/
theorem shared_normalization_statistics :
    compute_min_max_call.fn = "compute_min_max"
    ∧ compute_min_max_call.args =
        [⟨Option.none, PyVal.pathList [train_dir, test_dir]⟩,
         ⟨Option.none, PyVal.path min_max_file⟩]
    ∧ min_max_file.getLast? = some "ns_min_max.json"
    ∧ (datasetConstructorCalls.all fun c =>
        c.args.contains ⟨some "min_max_path", PyVal.path min_max_file⟩) = true := by
  decide

/-- Claim C1: for every list of data directories and every output path,
`compute_min_max` invoked on them produces a file at that path containing,
for each data channel (with at least one observation), that channel's
minimum and maximum statistic. -/
theorem compute_min_max_writes_stats (dirs : List StatDir) (out : NbPath)
    (fs : StatsFS) (h : ∀ c ∈ channelLayout, valuesOf dirs c ≠ []) :
    ∃ stats, compute_min_max dirs out fs out = some stats ∧
      ∀ c ∈ channelLayout, ∃ mn mx, (c, mn, mx) ∈ stats ∧
        mn ∈ valuesOf dirs c ∧ mx ∈ valuesOf dirs c ∧
        ∀ v ∈ valuesOf dirs c, mn ≤ v ∧ v ≤ mx := by
  refine ⟨statsOf dirs, ?_, ?_⟩
  · simp [compute_min_max]
  · intro c hc
    obtain ⟨mn, hmn⟩ : ∃ mn, minOf (valuesOf dirs c) = some mn := by
      cases hv : valuesOf dirs c with
      | nil => exact absurd hv (h c hc)
      | cons v vs => exact ⟨vs.foldl min v, rfl⟩
    obtain ⟨mx, hmx⟩ : ∃ mx, maxOf (valuesOf dirs c) = some mx := by
      cases hv : valuesOf dirs c with
      | nil => exact absurd hv (h c hc)
      | cons v vs => exact ⟨vs.foldl max v, rfl⟩
    have hmem : (c, mn, mx) ∈ statsOf dirs := by
      refine List.mem_filterMap.mpr ⟨c, hc, ?_⟩
      simp [statEntry, hmn, hmx]
    obtain ⟨hmn_mem, hmn_le⟩ := minOf_spec (valuesOf dirs c) mn hmn
    obtain ⟨hmx_mem, hmx_le⟩ := maxOf_spec (valuesOf dirs c) mx hmx
    exact ⟨mn, mx, hmem, hmn_mem, hmx_mem, fun v hv => ⟨hmn_le v hv, hmx_le v hv⟩⟩

/-- A concrete pair of data directories used to witness claim C1. -/
def statDirW : List StatDir :=
  [[(NSChannel.pressure, 3), (NSChannel.reynolds, 5), (NSChannel.uVel, 1),
    (NSChannel.vVel, 2)],
   [(NSChannel.pressure, 7), (NSChannel.reynolds, 4), (NSChannel.uVel, 6),
    (NSChannel.vVel, 0)]]

/-- Witness for claim C1, at the concrete directories `statDirW`, output
path `min_max_file` and the empty filesystem. -/
theorem compute_min_max_writes_stats_witness :
    (∀ c ∈ channelLayout, valuesOf statDirW c ≠ []) ∧
    (∃ stats,
        compute_min_max statDirW min_max_file (fun _ => Option.none) min_max_file =
          some stats ∧
      ∀ c ∈ channelLayout, ∃ mn mx, (c, mn, mx) ∈ stats ∧
        mn ∈ valuesOf statDirW c ∧ mx ∈ valuesOf statDirW c ∧
        ∀ v ∈ valuesOf statDirW c, mn ≤ v ∧ v ≤ mx) :=
  ⟨by decide,
   compute_min_max_writes_stats statDirW min_max_file (fun _ => Option.none)
     (by decide)⟩

/-- Claim C2: every batch produced by a data loader over a
`GenericPhysicsDataset` (both such loaders of the notebook collate with
`custom_collate_fn`) is the 4-tuple of, in order, the stacked initial
conditions, start times, end times, and ground-truth targets of its chunk of
samples. -/
theorem generic_loader_batch_structure (dirs : List TrajDir) (b : Nat)
    (batch : Batch)
    (hb : batch ∈ dataLoaderBatches (genericPhysicsDataset dirs) b custom_collate_fn) :
    (train_loader_call.args.contains
        ⟨some "collate_fn", PyVal.obj "custom_collate_fn"⟩ = true)
    ∧ (gt_loader_call.args.contains
        ⟨some "collate_fn", PyVal.obj "custom_collate_fn"⟩ = true)
    ∧ ∃ chunk ∈ chunksOf b (genericPhysicsDataset dirs),
        batch = (chunk.map Sample.ic, chunk.map Sample.t0, chunk.map Sample.t1,
                 chunk.map Sample.target) := by
  refine ⟨by decide, by decide, ?_⟩
  rcases List.mem_map.mp hb with ⟨chunk, hc, he⟩
  exact ⟨chunk, hc, he.symm⟩

/-- A concrete sample used to witness claims C2 and C9. -/
def sampleW : Sample := ⟨[3, 5, 1, 2], 0, 1, [4, 6, 2, 3]⟩

/-- Witness for claim C2, at one concrete single-directory dataset and batch
size 8. -/
theorem generic_loader_batch_structure_witness :
    (custom_collate_fn [sampleW] ∈
      dataLoaderBatches (genericPhysicsDataset [[sampleW]]) 8 custom_collate_fn) ∧
    ((train_loader_call.args.contains
        ⟨some "collate_fn", PyVal.obj "custom_collate_fn"⟩ = true)
    ∧ (gt_loader_call.args.contains
        ⟨some "collate_fn", PyVal.obj "custom_collate_fn"⟩ = true)
    ∧ ∃ chunk ∈ chunksOf 8 (genericPhysicsDataset [[sampleW]]),
        custom_collate_fn [sampleW] =
          (chunk.map Sample.ic, chunk.map Sample.t0, chunk.map Sample.t1,
           chunk.map Sample.target)) :=
  ⟨by decide,
   generic_loader_batch_structure [[sampleW]] 8 (custom_collate_fn [sampleW])
     (by decide)⟩

/-- Claim C6: `load_model_weights` is invoked with exactly a model, a
checkpoint file path and a device, and (as modelled from the spec) when the
checkpoint file holds the parameter vector `w` it returns the given model
with its weights replaced by `w`, placed on the given device. -/
theorem load_model_weights_invocation (m : NNModel) (ckpt : NbPath)
    (dev : String) (fs : CkptFS) (w : List Int) (h : fs ckpt = some w) :
    load_model_weights_call.fn = "load_model_weights"
    ∧ load_model_weights_call.args =
        [⟨Option.none, PyVal.obj "model"⟩,
         ⟨Option.none, PyVal.path model_weights_path⟩,
         ⟨Option.none, PyVal.obj "device"⟩]
    ∧ load_model_weights m ckpt dev fs = some ⟨m.arch, w, dev⟩ := by
  refine ⟨rfl, rfl, ?_⟩
  simp [load_model_weights, h]

/-- Witness for claim C6, at a concrete model, the notebook's checkpoint
path, the device `"cuda"`, and a filesystem holding a concrete parameter
vector. -/
theorem load_model_weights_invocation_witness :
    ((fun _ : NbPath => some [5, 7]) model_weights_path = some [5, 7]) ∧
    (load_model_weights_call.fn = "load_model_weights"
    ∧ load_model_weights_call.args =
        [⟨Option.none, PyVal.obj "model"⟩,
         ⟨Option.none, PyVal.path model_weights_path⟩,
         ⟨Option.none, PyVal.obj "device"⟩]
    ∧ load_model_weights ⟨"PARCv2", [0, 0], "cpu"⟩ model_weights_path "cuda"
        (fun _ => some [5, 7]) = some ⟨"PARCv2", [5, 7], "cuda"⟩) :=
  ⟨rfl,
   load_model_weights_invocation ⟨"PARCv2", [0, 0], "cpu"⟩ model_weights_path
     "cuda" (fun _ => some [5, 7]) [5, 7] rfl⟩

/-- Claim C7: the visualization entry points are invoked with prediction
and/or ground-truth tensors together with channel metadata
(`visualize_channels` on the batch tensors with `channel_names` and
`channel_cmaps`; `save_gifs_with_ground_truth` on the predictions and ground
truth with `channels` and `cmaps`), and (as modelled from the spec)
`save_gifs_with_ground_truth` emits one `.gif` comparison animation per
channel, named after the channel, whose frames pair the prediction frames
with the ground-truth frames. -/
theorem visualization_invocations (pred gt : Tensor5) (chs : List String)
    (stem : String) (bi i : Nat) :
    (visualize_channels_call.args.contains
        ⟨some "channel_names", PyVal.strList channel_names⟩ = true)
    ∧ (visualize_channels_call.args.contains
        ⟨Option.none, PyVal.obj "ic"⟩ = true)
    ∧ (visualize_channels_call.args.contains
        ⟨Option.none, PyVal.obj "target"⟩ = true)
    ∧ (save_gifs_call.args.contains
        ⟨some "predictions", PyVal.obj "predictions"⟩ = true)
    ∧ (save_gifs_call.args.contains
        ⟨some "ground_truth", PyVal.obj "ground_truth"⟩ = true)
    ∧ (save_gifs_call.args.contains
        ⟨some "channels", PyVal.strList channels⟩ = true)
    ∧ (save_gifs_call.args.contains
        ⟨some "cmaps", PyVal.strList cmaps⟩ = true)
    ∧ (save_gifs_with_ground_truth pred gt chs stem bi).map Prod.fst =
        chs.map (gifFileName stem)
    ∧ (save_gifs_with_ground_truth pred gt chs stem bi)[i]? =
        chs[i]?.map (fun ch => (gifFileName stem ch, gifFrames pred gt bi i)) := by
  refine ⟨by decide, by decide, by decide, by decide, by decide, by decide,
    by decide, ?_, ?_⟩
  · show (chs.enum.map _).map Prod.fst = _
    rw [List.map_map]
    have h1 : Prod.fst ∘ (fun p : Nat × String =>
        (gifFileName stem p.2, gifFrames pred gt bi p.1)) =
        (gifFileName stem) ∘ Prod.snd := rfl
    rw [h1, ← List.map_map, List.enum_map_snd]
  · show (chs.enum.map _)[i]? = _
    rw [List.getElem?_map, List.getElem?_enum]
    cases chs[i]? with
    | none => rfl
    | some ch => rfl

/-- Claim C9: the sequence (initial-condition) loader and the ground-truth
loader are built over the same test directory with the same forecast
horizon, the same batch size and shuffling disabled, and (as modelled from
the spec) over any test data their batch lists have the same length and, at
every index, the same initial conditions, start times and end times. -/
theorem seq_gt_loaders_aligned (dirs : List TrajDir) (n : Nat) :
    (seq_dataset_call.args.contains
        ⟨some "data_dirs", PyVal.pathList [test_dir]⟩ = true)
    ∧ (gt_dataset_call.args.contains
        ⟨some "data_dirs", PyVal.pathList [test_dir]⟩ = true)
    ∧ (seq_dataset_call.args.contains
        ⟨some "future_steps", PyVal.int future_steps'⟩ = true)
    ∧ (gt_dataset_call.args.contains
        ⟨some "future_steps", PyVal.int future_steps'⟩ = true)
    ∧ (seq_loader_call.args.contains
        ⟨some "batch_size", PyVal.int batch_size⟩ = true)
    ∧ (gt_loader_call.args.contains
        ⟨some "batch_size", PyVal.int batch_size⟩ = true)
    ∧ (seq_loader_call.args.contains
        ⟨some "shuffle", PyVal.bool false⟩ = true)
    ∧ (gt_loader_call.args.contains
        ⟨some "shuffle", PyVal.bool false⟩ = true)
    ∧ (seqBatches dirs).length = (gtBatches dirs).length
    ∧ ((seqBatches dirs)[n]?).map firstThree =
        ((gtBatches dirs)[n]?).map firstThree := by
  refine ⟨by decide, by decide, by decide, by decide, by decide, by decide,
    by decide, by decide, ?_, ?_⟩
  · show ((chunksOf batch_size (initialConditionDataset dirs)).map
        initial_condition_collate_fn).length =
      ((chunksOf batch_size (genericPhysicsDataset dirs)).map
        custom_collate_fn).length
    rw [List.length_map, List.length_map]
    rfl
  · show (((chunksOf batch_size (initialConditionDataset dirs)).map
        initial_condition_collate_fn)[n]?).map firstThree =
      (((chunksOf batch_size (genericPhysicsDataset dirs)).map
        custom_collate_fn)[n]?).map firstThree
    rw [List.getElem?_map, List.getElem?_map]
    have h1 : initialConditionDataset dirs = genericPhysicsDataset dirs := rfl
    rw [h1]
    cases (chunksOf batch_size (genericPhysicsDataset dirs))[n]? with
    | none => rfl
    | some chunk => rfl

end PARCtorch
